import Mathlib

/-!
Verification development for the ZoomETLProject repository: a batch ETL job
that extracts call-log records from a paginated REST API (Extract.py),
filters them against a warehouse watermark (Transform.py), and loads them
into a warehouse, staging the raw extract under date partitions (Load.py).

The Python source is shallowly embedded below.  Dates are modelled as
explicit year/month/day records with proleptic-Gregorian day arithmetic
(matching datetime + dateutil.relativedelta on the operations the code
uses); DataFrames are modelled as lists of rows; HTTP traffic is modelled
by a function from request index to response; exceptions (ValueError,
KeyError) become an Except error type.
-/

namespace ZoomETL

/-! ### Calendar model (datetime / dateutil.relativedelta behaviour) -/

/-- A calendar date, as handled by datetime.date / strftime in the source. -/
structure Date where
  year : Int
  month : Nat
  day : Nat
deriving Repr, DecidableEq

/-- Gregorian leap-year rule (Python % is floored mod; Int.emod agrees for
positive moduli). -/
def isLeap (y : Int) : Bool :=
  (Int.emod y 4 == 0 && Int.emod y 100 != 0) || Int.emod y 400 == 0

/-- Number of days in a month of a given year. -/
def daysInMonth (y : Int) (m : Nat) : Nat :=
  if m = 2 then (if isLeap y then 29 else 28)
  else if m = 4 ∨ m = 6 ∨ m = 9 ∨ m = 11 then 30
  else 31

/-- The previous calendar day. -/
def predDate (d : Date) : Date :=
  if 1 < d.day then { d with day := d.day - 1 }
  else if 1 < d.month then
    { year := d.year, month := d.month - 1, day := daysInMonth d.year (d.month - 1) }
  else { year := d.year - 1, month := 12, day := 31 }

/-- Subtracting k days: relativedelta(days=k) applied to a date. -/
def subDays (d : Date) (k : Nat) : Date := predDate^[k] d

/-- Linear month number of a date (year * 12 + zero-based month). -/
def monthIndex (d : Date) : Int := d.year * 12 + ((d.month : Int) - 1)

/-- Subtracting k months: relativedelta(months=k) normalizes the month
into the year and clamps the day to the target month's length.  Int `/`
and `%` are Euclidean division, which for the positive divisor 12 agrees
with Python's floored // and %. -/
def subMonths (d : Date) (k : Nat) : Date :=
  let i : Int := monthIndex d - k
  let y : Int := i / 12
  let m : Nat := (i % 12).toNat + 1
  { year := y, month := m, day := min d.day (daysInMonth y m) }

/-- Subtracting k years: relativedelta(years=k) decrements the year and
clamps the day (Feb 29 → Feb 28). -/
def subYears (d : Date) (k : Nat) : Date :=
  let y : Int := d.year - k
  { year := y, month := d.month, day := min d.day (daysInMonth y d.month) }

/-- Chronological order on dates, as pandas compares parsed datetimes. -/
def dateLe (a b : Date) : Bool :=
  decide (a.year < b.year ∨ (a.year = b.year ∧
    (a.month < b.month ∨ (a.month = b.month ∧ a.day ≤ b.day))))

/-! ### Extract.py -/

/-- One call record of the API's call_logs batches; only the fields the
claims mention (id, date_time) are carried, date_time as a timestamp. -/
structure CallRow where
  id : Nat
  date_time : Int
deriving Repr, DecidableEq

/-- One JSON response body of the call_logs endpoint: total_records (read
on the first page), the optional next_page_token, and the record batch.
A missing next_page_token key is modelled as none. -/
structure ZoomResponse where
  total_records : Nat
  next_page_token : Option String
  call_logs : List CallRow
deriving Repr, DecidableEq

/-- The exceptions the embedded code can raise: the two ValueErrors of
Extract.py (page_size > 300, bad period) and Python KeyError. -/
inductive ZoomError where
  | pageSizeExceeded (n : Nat)
  | invalidPeriod
  | keyError (key : String)
deriving Repr, DecidableEq

/-- Extract.is_positive (Extract.py lines 170-175): 1 if n > 0 else 0. -/
def is_positive (n : Int) : Nat := if 0 < n then 1 else 0

/-- The page count computed on the first loop iteration of get_call_logs
(Extract.py line 262): records // page_size + is_positive(records % page_size). -/
def pages_for (records page_size : Nat) : Nat :=
  records / page_size + is_positive (Int.ofNat (records % page_size))

/-- The remaining iterations of the while loop of get_call_logs after the
first response (Extract.py lines 240-275): before each further request the
loop reads next_page_token from the previous response (KeyError if the key
is absent), fetches the next page, appends it, and stops once the page
counter reaches the page count.  responses maps the request index to the
response received; n is the number of pages still to fetch. -/
def fetchRest (responses : Nat → ZoomResponse) :
    Nat → Nat → ZoomResponse → List ZoomResponse → Except ZoomError (List ZoomResponse)
  | 0, _, _, acc => .ok acc
  | n + 1, idx, prev, acc =>
    match prev.next_page_token with
    | none => .error (.keyError "next_page_token")
    | some _ => fetchRest responses n (idx + 1) (responses idx) (acc ++ [responses idx])

/-- Extract.py lines 277-284: map the call_logs field over the collected
response dictionaries and flatten into one record table. -/
def build_call_df (log_dicts : List ZoomResponse) : List CallRow :=
  (log_dicts.map ZoomResponse.call_logs).flatten

/-- Extract.get_call_logs (Extract.py lines 199-288).  The page_size bound
is checked before any request; on the first response total_records is read
and, if zero, the loop breaks before appending the first batch, so the
table is built from an empty accumulator; otherwise the page count is
computed and the loop continues via next_page_token.  URL construction and
the rate limiter do not affect the returned data and are not modelled. -/
def get_call_logs (page_size : Nat) (responses : Nat → ZoomResponse) :
    Except ZoomError (List CallRow) :=
  if 300 < page_size then .error (.pageSizeExceeded page_size)
  else if (responses 0).total_records = 0 then .ok (build_call_df [])
  else
    match fetchRest responses (pages_for (responses 0).total_records page_size - 1)
        1 (responses 0) [responses 0] with
    | .error e => .error e
    | .ok log_dicts => .ok (build_call_df log_dicts)

/-- Extract.get_date_range (Extract.py lines 95-149).  today stands for
datetime.today(); cfg_end = none models the end_date config literal
string today.  When use_date_range is false the start date is derived
from period and num_periods; an unrecognized period raises ValueError. -/
def get_date_range (today : Date) (period : String) (num_periods : Nat)
    (use_date_range : Bool) (cfg_start : Date) (cfg_end : Option Date) :
    Except ZoomError (Date × Date) :=
  let end_date := match cfg_end with | none => today | some d => d
  if use_date_range then .ok (cfg_start, end_date)
  else if period = "day" then
    .ok (subDays today (num_periods - 1), end_date)
  else if period = "month" then
    .ok ({ subMonths today (num_periods - 1) with day := 1 }, end_date)
  else if period = "year" then
    .ok ({ subYears today (num_periods - 1) with month := 1, day := 1 }, end_date)
  else .error .invalidPeriod

/-- Extract.extract_data (Extract.py lines 64-93): resolve the window,
pull the call logs, then log summary stats.  The summary-log line reads
df[date_time] (line 88); pandas raises KeyError there when the frame was
built from an empty list, because such a frame has no columns at all —
modelled by the isEmpty check. -/
def extract_data (today : Date) (period : String) (num_periods : Nat)
    (use_date_range : Bool) (cfg_start : Date) (cfg_end : Option Date)
    (page_size : Nat) (responses : Nat → ZoomResponse) :
    Except ZoomError (List CallRow) :=
  match get_date_range today period num_periods use_date_range cfg_start cfg_end with
  | .error e => .error e
  | .ok _ =>
    match get_call_logs page_size responses with
    | .error e => .error e
    | .ok df => if df.isEmpty then .error (.keyError "date_time") else .ok df

/-! ### Transform.py -/

/-- Transform.transform_call_log (Transform.py lines 64-102): after the
id → record_id rename and the upper-casing of column names (both captured
by the CallRow field names), the frame is filtered to rows whose DATE_TIME
is strictly greater than the warehouse maximum (line 93). -/
def transform_call_log (df : List CallRow) (max_datetime : Int) : List CallRow :=
  df.filter (fun r => max_datetime < r.date_time)

/-! ### Load.py -/

/-- The pandas-dtype → Snowflake-type lookup dictionary of
Load.get_create_string (Load.py lines 125-131), verbatim, including the
unbalanced parenthesis in the datetime64[ns] entry; a dtype outside the
dictionary raises KeyError (none). -/
def dtype_conversions (t : String) : Option String :=
  if t = "object" then some "string"
  else if t = "int64" then some "integer"
  else if t = "Int64" then some "integer"
  else if t = "datetime64[ns]" then some "TIMESTAMP_NTZ(9))"
  else if t = "float64" then some "REAL"
  else if t = "boolean" then some "BOOLEAN"
  else if t = "category" then some "string"
  else none

/-- The dict comprehension of Load.py line 138: replace each column's
pandas dtype by its Snowflake type, raising KeyError on an unknown dtype.
A column list models df.dtypes as (column name, dtype name) pairs. -/
def convertDtypes : List (String × String) → Except ZoomError (List (String × String))
  | [] => .ok []
  | (c, t) :: rest =>
    match dtype_conversions t with
    | none => .error (.keyError t)
    | some s =>
      match convertDtypes rest with
      | .error e => .error e
      | .ok rest2 => .ok ((c, s) :: rest2)

/-- ASCII upper-casing of one character, as str.upper acts on the
column names appearing in this pipeline. -/
def upChar (c : Char) : Char :=
  if c.toNat ≥ 97 && c.toNat ≤ 122 then Char.ofNat (c.toNat - 32) else c

/-- col.upper().replace(" ", "_") of Load.py line 143. -/
def normalizeCol (s : String) : String :=
  String.mk (s.data.map (fun c => if c == ' ' then '_' else upChar c))

/-- Python dict lookup d[key] on an insertion-ordered association list. -/
def lookupAssoc : List (String × String) → String → Option String
  | [], _ => none
  | (k, v) :: rest, key => if k == key then some v else lookupAssoc rest key

/-- Python dict assignment d[k] = v on an insertion-ordered association
list: overwrite in place when the key exists (dict keys are unique, so
only the first occurrence can match), append otherwise. -/
def setAssoc : List (String × String) → String → String → List (String × String)
  | [], k, v => [(k, v)]
  | (k0, v0) :: rest, k, v =>
    if k0 == k then (k, v) :: rest else (k0, v0) :: setAssoc rest k v

/-- The datetime-columns override loop of Load.py lines 142-143: each
configured name, normalized, is assigned the type TIMESTAMP_NTZ(9) in the
dtypes dictionary. -/
def applyDatetimeOverrides (l : List (String × String)) :
    List String → List (String × String)
  | [] => l
  | c :: rest => applyDatetimeOverrides (setAssoc l (normalizeCol c) "TIMESTAMP_NTZ(9)") rest

/-- Load.get_create_string (Load.py lines 105-149): convert the observed
dtypes, apply the datetime overrides, and join the entries into a CREATE
TABLE IF NOT EXISTS statement. -/
def get_create_string (table_name : String) (df : List (String × String))
    (datetime_columns : List String) : Except ZoomError String :=
  match convertDtypes df with
  | .error e => .error e
  | .ok dtypes =>
    let dtypes2 := applyDatetimeOverrides dtypes datetime_columns
    .ok ("CREATE TABLE IF NOT EXISTS " ++ table_name ++ "(" ++
      String.intercalate ", " (dtypes2.map (fun p => "\"" ++ p.1 ++ "\" " ++ p.2)) ++ ")")

/-- The pruning step of Load.load_source_data (Load.py lines 185-198):
from the dates parsed out of the staged paths, keep those satisfying
dates <= today - timedelta(days=days_to_stage), deduplicate, and remove
each such partition. -/
def old_dates (staged : List Date) (today : Date) (days_to_stage : Nat) : List Date :=
  ((staged.filter (fun d => dateLe d (subDays today days_to_stage))).dedup)

/-! ### Helper lemmas -/

/-- Ceiling division identity: floor division plus one exactly on a
nonzero remainder equals the usual (r + p - 1) / p form. -/
theorem ceil_div_helper (r p : Nat) (hp : 0 < p) :
    r / p + (if r % p ≠ 0 then 1 else 0) = (r + p - 1) / p := by
  have hr := Nat.div_add_mod r p
  rcases Nat.eq_zero_or_pos (r % p) with h | h
  · have e : r + p - 1 = p * (r / p) + (p - 1) := by omega
    rw [e, Nat.mul_add_div hp, Nat.div_eq_of_lt (show p - 1 < p by omega)]
    simp [h]
  · have hlt := Nat.mod_lt r hp
    have e : r + p - 1 = p * (r / p + 1) + (r % p - 1) := by
      rw [Nat.mul_add, Nat.mul_one]; omega
    rw [e, Nat.mul_add_div hp, Nat.div_eq_of_lt (show r % p - 1 < p by omega)]
    have hne : r % p ≠ 0 := by omega
    simp [hne]

/-- A response transcript whose first body reports zero records. -/
def zeroResponses : Nat → ZoomResponse :=
  fun _ => { total_records := 0, next_page_token := none, call_logs := [] }

/-- A response transcript reporting zero records while still carrying a
non-empty call_logs batch in the first body. -/
def zeroWithBatchResponses : Nat → ZoomResponse :=
  fun _ => { total_records := 0, next_page_token := some "tok", call_logs := [⟨1, 10⟩] }

/-! ### Claims -/

/-- Claim C1: for positive total_records and page_size, the page count
computed by get_call_logs equals ceil(total_records / page_size) — floor
division plus one exactly when the remainder is nonzero — and in
particular 250 records at page size 100 give 3 pages, and 300 records at
page size 100 give 3 pages. -/
theorem pages_ceil (records page_size : Nat)
    (hr : 0 < records) (hp : 0 < page_size) :
    pages_for records page_size
        = records / page_size + (if records % page_size ≠ 0 then 1 else 0) ∧
    pages_for records page_size = (records + page_size - 1) / page_size ∧
    pages_for 250 100 = 3 ∧ pages_for 300 100 = 3 := by
  have base : pages_for records page_size
      = records / page_size + (if records % page_size ≠ 0 then 1 else 0) := by
    unfold pages_for is_positive
    by_cases h : records % page_size = 0
    · simp [h]
    · simp only [h, ne_eq, not_false_eq_true, if_true]
      have hpos : (0 : Int) < Int.ofNat (records % page_size) :=
        Int.ofNat_pos.mpr (Nat.pos_of_ne_zero h)
      rw [if_pos hpos]
  exact ⟨base, by rw [base]; exact ceil_div_helper records page_size hp,
    by decide, by decide⟩

theorem pages_ceil_witness :
    pages_for 250 100 = 250 / 100 + (if 250 % 100 ≠ 0 then 1 else 0) :=
  (pages_ceil 250 100 (by decide) (by decide)).1

/-- Claim C2: the Transformer's filter keeps exactly the rows whose
timestamp is strictly greater than the watermark; a row whose timestamp
equals the watermark is dropped; and on rows with timestamps [10, 20, 30]
and watermark 20, only the timestamp-30 row remains. -/
theorem transform_watermark_filter :
    (∀ (df : List CallRow) (wm : Int) (r : CallRow),
      r ∈ transform_call_log df wm ↔ (r ∈ df ∧ wm < r.date_time)) ∧
    (∀ (df : List CallRow) (wm : Int) (r : CallRow),
      r ∈ df → r.date_time = wm → r ∉ transform_call_log df wm) ∧
    transform_call_log [⟨1, 10⟩, ⟨2, 20⟩, ⟨3, 30⟩] 20 = [⟨3, 30⟩] := by
  have base : ∀ (df : List CallRow) (wm : Int) (r : CallRow),
      r ∈ transform_call_log df wm ↔ (r ∈ df ∧ wm < r.date_time) := by
    intro df wm r
    simp [transform_call_log, List.mem_filter]
  refine ⟨base, ?_, by decide⟩
  intro df wm r hmem heq hcontra
  have := (base df wm r).mp hcontra
  omega

theorem transform_watermark_filter_witness :
    (⟨2, 20⟩ : CallRow) ∉ transform_call_log [⟨1, 10⟩, ⟨2, 20⟩, ⟨3, 30⟩] 20 :=
  transform_watermark_filter.2.1 [⟨1, 10⟩, ⟨2, 20⟩, ⟨3, 30⟩] 20 ⟨2, 20⟩ (by simp) rfl

/-- Claim C3, counterexample: the pruning filter uses dates <= n_days, so
a partition dated exactly today - days_to_stage IS deleted: with today =
2024-03-15 and days_to_stage = 7, the boundary partition 2024-03-08 is in
the removal list, contradicting the claim that it is not deleted. -/
theorem old_dates_boundary_counterexample :
    subDays ⟨2024, 3, 15⟩ 7 = ⟨2024, 3, 8⟩ ∧
    old_dates [⟨2024, 3, 8⟩] ⟨2024, 3, 15⟩ 7 = [⟨2024, 3, 8⟩] := by decide

/-- Claim C3, amended: the pruning step of load_source_data removes
exactly the partitions whose date segment is less than or equal to
today - days_to_stage days (the boundary partition included). -/
theorem old_dates_le_boundary (staged : List Date) (today : Date)
    (days_to_stage : Nat) (d : Date) :
    d ∈ old_dates staged today days_to_stage ↔
      (d ∈ staged ∧ dateLe d (subDays today days_to_stage) = true) := by
  simp [old_dates, List.mem_dedup, List.mem_filter]

/-- Claim C4 (code bug): when the first response reports total_records =
0, get_call_logs does return an empty record table, but extract_data does
not return normally: its summary-log line subscripts the date_time column
of the empty, column-free frame and raises KeyError. -/
theorem zero_records_extract_keyerror :
    get_call_logs 100 zeroResponses = .ok [] ∧
    extract_data ⟨2024, 3, 15⟩ "day" 1 false ⟨2024, 1, 1⟩ none 100 zeroResponses
      = .error (.keyError "date_time") := ⟨rfl, rfl⟩

/-- Claim C9: when the first response reports total_records = 0, the
record table returned by get_call_logs is empty even if that first
response carries a non-empty call_logs batch — the loop exits before the
first batch is appended to the accumulator. -/
theorem zero_records_discards_batch (page_size : Nat)
    (responses : Nat → ZoomResponse) (hp : page_size ≤ 300)
    (h0 : (responses 0).total_records = 0) :
    get_call_logs page_size responses = .ok [] ∧
    get_call_logs 100 zeroWithBatchResponses = .ok [] ∧
    (zeroWithBatchResponses 0).call_logs ≠ [] := by
  refine ⟨?_, rfl, by decide⟩
  simp [get_call_logs, Nat.not_lt.mpr hp, h0, build_call_df]

theorem zero_records_discards_batch_witness :
    get_call_logs 100 zeroWithBatchResponses = .ok [] :=
  (zero_records_discards_batch 100 zeroWithBatchResponses (by decide) rfl).1

/-- If the previous response (with iterations still to go) or any response
read before the last remaining iteration lacks next_page_token, the page
loop terminates with the KeyError. -/
theorem fetchRest_err (responses : Nat → ZoomResponse) (n idx : Nat)
    (prev : ZoomResponse) (acc : List ZoomResponse)
    (h : (0 < n ∧ prev.next_page_token = none) ∨
      ∃ j, j + 1 < n ∧ (responses (idx + j)).next_page_token = none) :
    fetchRest responses n idx prev acc = .error (.keyError "next_page_token") := by
  induction n generalizing idx prev acc with
  | zero =>
    rcases h with ⟨h1, _⟩ | ⟨j, hj, _⟩ <;> omega
  | succ m ih =>
    simp only [fetchRest]
    cases htok : prev.next_page_token with
    | none => rfl
    | some t =>
      rcases h with ⟨_, hnone⟩ | ⟨j, hj, hnone⟩
      · rw [htok] at hnone; exact absurd hnone (by simp)
      · apply ih
        rcases j with _ | j'
        · left
          refine ⟨by omega, ?_⟩
          simpa using hnone
        · right
          refine ⟨j', by omega, ?_⟩
          rw [show idx + 1 + j' = idx + (j' + 1) by omega]
          exact hnone

/-- Every error the page loop can produce is the next_page_token
KeyError. -/
theorem fetchRest_error_shape (responses : Nat → ZoomResponse) (n idx : Nat)
    (prev : ZoomResponse) (acc : List ZoomResponse) (e : ZoomError)
    (h : fetchRest responses n idx prev acc = .error e) :
    e = .keyError "next_page_token" := by
  induction n generalizing idx prev acc with
  | zero => simp [fetchRest] at h
  | succ m ih =>
    simp only [fetchRest] at h
    cases htok : prev.next_page_token with
    | none =>
      rw [htok] at h
      simp at h
      exact h.symm
    | some t =>
      rw [htok] at h
      exact ih _ _ _ h

/-- Claim C7: if any response read before the expected terminal page lacks
next_page_token, get_call_logs fails with the fatal KeyError — the run
neither loops forever (the embedded loop is structurally terminating) nor
restarts the window with the token-less first-page request. -/
theorem missing_token_fatal (page_size : Nat) (responses : Nat → ZoomResponse)
    (hp : page_size ≤ 300) (hr : (responses 0).total_records ≠ 0)
    (j : Nat) (hj : j + 1 < pages_for (responses 0).total_records page_size)
    (hnone : (responses j).next_page_token = none) :
    get_call_logs page_size responses = .error (.keyError "next_page_token") := by
  have herr : fetchRest responses
      (pages_for (responses 0).total_records page_size - 1) 1 (responses 0)
      [responses 0] = .error (.keyError "next_page_token") := by
    apply fetchRest_err
    rcases j with _ | j'
    · exact Or.inl ⟨by omega, hnone⟩
    · refine Or.inr ⟨j', by omega, ?_⟩
      rw [show 1 + j' = j' + 1 by omega]
      exact hnone
  simp [get_call_logs, Nat.not_lt.mpr hp, hr, herr]

/-- Transcript with 250 available records whose responses never carry a
continuation token. -/
def tokenlessResponses : Nat → ZoomResponse :=
  fun _ => { total_records := 250, next_page_token := none, call_logs := [] }

theorem missing_token_fatal_witness :
    get_call_logs 100 tokenlessResponses = .error (.keyError "next_page_token") :=
  missing_token_fatal 100 tokenlessResponses (by decide) (by decide) 0 (by decide) rfl

/-- Claim C8: a page_size above 300 makes get_call_logs raise the
configuration ValueError before any request is examined (the result does
not depend on the response transcript); a page_size of at most 300 never
produces that error. -/
theorem page_size_guard (page_size : Nat) (responses : Nat → ZoomResponse) :
    (300 < page_size →
      get_call_logs page_size responses = .error (.pageSizeExceeded page_size)) ∧
    (page_size ≤ 300 →
      ∀ n, get_call_logs page_size responses ≠ .error (.pageSizeExceeded n)) := by
  constructor
  · intro h
    simp [get_call_logs, h]
  · intro h n hcontra
    unfold get_call_logs at hcontra
    rw [if_neg (Nat.not_lt.mpr h)] at hcontra
    by_cases h0 : (responses 0).total_records = 0
    · rw [if_pos h0] at hcontra
      exact absurd hcontra (by simp)
    · rw [if_neg h0] at hcontra
      cases hfr : fetchRest responses
          (pages_for (responses 0).total_records page_size - 1) 1 (responses 0)
          [responses 0] with
      | ok l =>
        rw [hfr] at hcontra
        simp at hcontra
      | error e =>
        rw [hfr] at hcontra
        have hshape := fetchRest_error_shape _ _ _ _ _ _ hfr
        subst hshape
        simp at hcontra

theorem page_size_guard_witness :
    get_call_logs 301 zeroResponses = .error (.pageSizeExceeded 301) ∧
    get_call_logs 100 zeroResponses ≠ .error (.pageSizeExceeded 100) :=
  ⟨(page_size_guard 301 zeroResponses).1 (by decide),
   (page_size_guard 100 zeroResponses).2 (by decide) 100⟩

/-- Claim C6: with no explicit date range and num_periods ≥ 1, the start
date derived by get_date_range is: for period day, today minus
num_periods - 1 days; for period month, the first day of the month that
is num_periods - 1 months before today; for period year, January 1 of the
year that is num_periods - 1 years before today; with today = 2024-03-15
the pairs (day,1), (month,2), (year,1) give 2024-03-15, 2024-02-01 and
2024-01-01; and any other period value raises the fatal ValueError. -/
theorem get_date_range_spec (today cfg_start : Date) (cfg_end : Option Date)
    (num_periods : Nat) (h : 1 ≤ num_periods) :
    (get_date_range today "day" num_periods false cfg_start cfg_end).map Prod.fst
        = .ok (subDays today (num_periods - 1)) ∧
    (∀ s, (get_date_range today "month" num_periods false cfg_start cfg_end).map
        Prod.fst = .ok s →
      s.day = 1 ∧ 1 ≤ s.month ∧ s.month ≤ 12 ∧
        monthIndex s = monthIndex today - ((num_periods : Int) - 1)) ∧
    (∀ s, (get_date_range today "year" num_periods false cfg_start cfg_end).map
        Prod.fst = .ok s →
      s = ⟨today.year - ((num_periods : Int) - 1), 1, 1⟩) ∧
    (∀ p, p ≠ "day" → p ≠ "month" → p ≠ "year" →
      get_date_range today p num_periods false cfg_start cfg_end
        = .error .invalidPeriod) ∧
    (get_date_range ⟨2024, 3, 15⟩ "day" 1 false cfg_start cfg_end).map Prod.fst
        = .ok ⟨2024, 3, 15⟩ ∧
    (get_date_range ⟨2024, 3, 15⟩ "month" 2 false cfg_start cfg_end).map Prod.fst
        = .ok ⟨2024, 2, 1⟩ ∧
    (get_date_range ⟨2024, 3, 15⟩ "year" 1 false cfg_start cfg_end).map Prod.fst
        = .ok ⟨2024, 1, 1⟩ := by
  refine ⟨rfl, ?_, ?_, ?_, rfl, rfl, rfl⟩
  · intro s hs
    have key : (get_date_range today "month" num_periods false cfg_start cfg_end).map
        Prod.fst = .ok { subMonths today (num_periods - 1) with day := 1 } := rfl
    rw [key] at hs
    simp only [Except.ok.injEq] at hs
    subst hs
    have h1 := Int.ediv_add_emod (monthIndex today - (num_periods - 1 : Nat)) 12
    have h2 : 0 ≤ (monthIndex today - (num_periods - 1 : Nat)) % 12 :=
      Int.emod_nonneg _ (by decide)
    have h3 : (monthIndex today - (num_periods - 1 : Nat)) % 12 < 12 :=
      Int.emod_lt_of_pos _ (by decide)
    simp only [subMonths, monthIndex] at h1 h2 h3 ⊢
    refine ⟨trivial, ?_, ?_, ?_⟩ <;> omega
  · intro s hs
    have key : (get_date_range today "year" num_periods false cfg_start cfg_end).map
        Prod.fst = .ok { subYears today (num_periods - 1) with month := 1, day := 1 }
      := rfl
    rw [key] at hs
    simp only [Except.ok.injEq] at hs
    subst hs
    simp only [subYears, Date.mk.injEq]
    refine ⟨by omega, trivial, trivial⟩
  · intro p h1 h2 h3
    simp [get_date_range, h1, h2, h3]

theorem get_date_range_spec_witness :
    (get_date_range ⟨2024, 3, 15⟩ "day" 1 false ⟨2024, 1, 1⟩ none).map Prod.fst
      = .ok (subDays ⟨2024, 3, 15⟩ 0) :=
  (get_date_range_spec ⟨2024, 3, 15⟩ ⟨2024, 1, 1⟩ none 1 (by decide)).1

/-- Claim C5 (code bug): the conversion dictionary's datetime64[ns] entry
carries a stray closing parenthesis, so the CREATE statement for a table
with one integer, one string and one native-datetime column types the
datetime column as TIMESTAMP_NTZ(9)) — not the TIMESTAMP_NTZ(9) the
intended mapping (spelled correctly in the override on Load.py line 143)
would produce — leaving the statement's parentheses unbalanced. -/
theorem create_string_datetime_typo :
    get_create_string "T" [("A", "int64"), ("B", "object"), ("C", "datetime64[ns]")] []
      = .ok "CREATE TABLE IF NOT EXISTS T(\"A\" integer, \"B\" string, \"C\" TIMESTAMP_NTZ(9)))" ∧
    dtype_conversions "datetime64[ns]" = some "TIMESTAMP_NTZ(9))" ∧
    dtype_conversions "datetime64[ns]" ≠ some "TIMESTAMP_NTZ(9)" :=
  ⟨rfl, rfl, by decide⟩

/-- Looking up the assigned key after a dict assignment yields the
assigned value. -/
theorem lookup_setAssoc_self (k v : String) :
    ∀ l : List (String × String), lookupAssoc (setAssoc l k v) k = some v := by
  intro l
  induction l with
  | nil => simp [setAssoc, lookupAssoc]
  | cons p rest ih =>
    obtain ⟨a, b⟩ := p
    by_cases h : (a == k) = true
    · simp [setAssoc, h, lookupAssoc]
    · simpa [setAssoc, h, lookupAssoc] using ih

/-- A dict assignment leaves the value at every other key unchanged. -/
theorem lookup_setAssoc_ne (k kq v : String) (hne : kq ≠ k) :
    ∀ l : List (String × String),
      lookupAssoc (setAssoc l k v) kq = lookupAssoc l kq := by
  intro l
  have hk : ¬((k == kq) = true) := by simp [Ne.symm hne]
  induction l with
  | nil => simp [setAssoc, lookupAssoc, hk]
  | cons p rest ih =>
    obtain ⟨a, b⟩ := p
    by_cases h : (a == k) = true
    · have ha : a = k := by simpa using h
      have ha2 : ¬((a == kq) = true) := by rw [ha]; exact hk
      simp [setAssoc, h, lookupAssoc, hk, ha2]
    · by_cases h2 : (a == kq) = true
      · simp [setAssoc, h, lookupAssoc, h2]
      · simpa [setAssoc, h, lookupAssoc, h2] using ih

/-- Once a key holds TIMESTAMP_NTZ(9) in the dtypes dictionary, the
remaining datetime overrides keep it there: each override either targets
a different key or rewrites the same value. -/
theorem overrides_preserve (key : String) :
    ∀ (dt : List String) (l : List (String × String)),
      lookupAssoc l key = some "TIMESTAMP_NTZ(9)" →
      lookupAssoc (applyDatetimeOverrides l dt) key = some "TIMESTAMP_NTZ(9)" := by
  intro dt
  induction dt with
  | nil =>
    intro l h
    simpa [applyDatetimeOverrides] using h
  | cons c rest ih =>
    intro l h
    simp only [applyDatetimeOverrides]
    apply ih
    by_cases hk : key = normalizeCol c
    · subst hk
      exact lookup_setAssoc_self _ _ l
    · rw [lookup_setAssoc_ne _ _ _ hk l]
      exact h

/-- Every configured datetime column ends up mapped to TIMESTAMP_NTZ(9)
in the dtypes dictionary, whether or not the key was present before. -/
theorem override_mem (c : String) :
    ∀ (dt : List String) (l : List (String × String)), c ∈ dt →
      lookupAssoc (applyDatetimeOverrides l dt) (normalizeCol c)
        = some "TIMESTAMP_NTZ(9)" := by
  intro dt
  induction dt with
  | nil => intro l hc; cases hc
  | cons c0 rest ih =>
    intro l hc
    simp only [applyDatetimeOverrides]
    rcases List.mem_cons.mp hc with hceq | hmem
    · subst hceq
      exact overrides_preserve _ rest _ (lookup_setAssoc_self _ _ l)
    · exact ih _ hmem

/-- Claim C10: every name in the configured datetime-columns list —
normalized to upper case with spaces replaced by underscores — is bound
to TIMESTAMP_NTZ(9) in the dictionary get_create_string builds its CREATE
statement from, even when no column of that name exists in the input
table; concretely, a table with no columns at all and the configured list
[call time] yields a CREATE statement declaring the absent column
CALL_TIME as TIMESTAMP_NTZ(9). -/
theorem datetime_override_adds_column (l : List (String × String))
    (dtcols : List String) (c : String) (hc : c ∈ dtcols) :
    lookupAssoc (applyDatetimeOverrides l dtcols) (normalizeCol c)
      = some "TIMESTAMP_NTZ(9)" ∧
    (∀ (table : String) (df : List (String × String))
        (dtypes : List (String × String)), convertDtypes df = .ok dtypes →
      get_create_string table df dtcols = .ok ("CREATE TABLE IF NOT EXISTS " ++
        table ++ "(" ++ String.intercalate ", "
          ((applyDatetimeOverrides dtypes dtcols).map
            (fun p => "\"" ++ p.1 ++ "\" " ++ p.2)) ++ ")")) ∧
    get_create_string "T" [] ["call time"]
      = .ok "CREATE TABLE IF NOT EXISTS T(\"CALL_TIME\" TIMESTAMP_NTZ(9))" := by
  refine ⟨override_mem c dtcols l hc, ?_, rfl⟩
  intro table df dtypes hconv
  simp [get_create_string, hconv]

theorem datetime_override_adds_column_witness :
    lookupAssoc (applyDatetimeOverrides [] ["call time"]) (normalizeCol "call time")
      = some "TIMESTAMP_NTZ(9)" :=
  (datetime_override_adds_column [] ["call time"] "call time" (by simp)).1

end ZoomETL
